import Mathlib

/-!
Verification of the packet-interception firewall core (Go package `firewall`)
against its natural-language specification.  The Go source is shallowly
embedded: each Go function of the firewall package becomes a pure Lean
function threading the mutated state (connection record, packet counters)
explicitly.  Collaborators that live outside the firewall package (policy
engine, stream manager, ICMP listener, nameserver-IP predicate, IP
classifier) are parameters gathered in environment records, as the spec
treats them as opaque contracts.
-/

namespace Portmaster

/-- Modelled from the spec: the verdict kinds of §3 (the `network.Verdict`
enum is not part of the embedded firewall sources). -/
inductive Verdict where
  | undecided
  | accept
  | rerouteToTunnel
  | rerouteToNameserver
  | block
  | drop
  | failed
deriving DecidableEq

/-- Modelled from the spec: the monotonic severity order of §4.6,
`undecided < accept < \x7breroute-to-tunnel, reroute-to-nameserver\x7d < block <
drop < failed`; the Go clamp `verdict < conn.Verdict` compares the enum's
numeric values, embedded here as this rank. -/
def Verdict.rank : Verdict → Nat
  | .undecided => 0
  | .accept => 1
  | .rerouteToTunnel => 2
  | .rerouteToNameserver => 2
  | .block => 3
  | .drop => 4
  | .failed => 5

/-- The per-packet driver verdict sinks of §4.1 (`pkt.Accept`,
`pkt.PermanentAccept`, ...). -/
inductive Sink where
  | accept
  | permanentAccept
  | block
  | permanentBlock
  | drop
  | permanentDrop
  | rerouteToNameserver
  | rerouteToTunnel
deriving DecidableEq

/-- Whether a sink is one of the permanent variants. -/
def Sink.isPermanentVariant : Sink → Bool
  | .permanentAccept => true
  | .permanentBlock => true
  | .permanentDrop => true
  | _ => false

/-- The four global packet counters (`packetsAccepted`, `packetsBlocked`,
`packetsDropped`, `packetsFailed`). -/
structure Stats where
  accepted : Nat
  blocked : Nat
  dropped : Nat
  failed : Nat
deriving DecidableEq

/-- Sum of the four counters. -/
def Stats.total (s : Stats) : Nat :=
  s.accepted + s.blocked + s.dropped + s.failed

/-- IP addresses, abstracted to a version flag plus a numeric value; the
firewall only compares them for equality and feeds them to collaborator
predicates. -/
structure IP where
  isV6 : Bool
  addr : Nat
deriving DecidableEq

/-- Sentinel block target `0.0.0.17` (the Go `blockedIPv4`). -/
def blockedIPv4 : IP := ⟨false, 17⟩

/-- Sentinel block target `::17` (the Go `blockedIPv6`). -/
def blockedIPv6 : IP := ⟨true, 23⟩

/-- Layer-4 protocols distinguished by the firewall (`packet.TCP`,
`packet.UDP`, `packet.ICMP`, `packet.ICMPv6`, anything else). -/
inductive Protocol where
  | tcp
  | udp
  | icmp
  | icmpv6
  | other
deriving DecidableEq

/-- The packet metadata returned by `pkt.Info()`: 5-tuple, protocol and
direction. -/
structure PacketInfo where
  src : IP
  dst : IP
  srcPort : Nat
  dstPort : Nat
  protocol : Protocol
  outbound : Bool
deriving DecidableEq

/-- The ICMP/ICMPv6 control layer extracted by
`pkt.Layers().LayerClass(layers.LayerClassIPControl)`: which Go layer type
matched and its type code. -/
structure ICMPLayer where
  v6 : Bool
  icmpType : Nat
deriving DecidableEq

/-- gopacket constant `layers.ICMPv4TypeEchoReply`. -/
def icmpV4EchoReply : Nat := 0

/-- gopacket constant `layers.ICMPv4TypeEchoRequest`. -/
def icmpV4EchoRequest : Nat := 8

/-- gopacket constant `layers.ICMPv6TypeEchoRequest`. -/
def icmpV6EchoRequest : Nat := 128

/-- gopacket constant `layers.ICMPv6TypeEchoReply`. -/
def icmpV6EchoReply : Nat := 129

/-- An intercepted packet: metadata, the OS-integration fast-track hint,
whether `LoadPacketData` succeeds, the parsed control layer (valid after a
successful load; `none` when the layer class does not match ICMPv4/ICMPv6),
and its connection-id. -/
structure Packet where
  info : PacketInfo
  fastTrackedByIntegration : Bool
  loadPayloadOk : Bool
  icmpLayer : Option ICMPLayer
  connID : Nat
deriving DecidableEq

/-- The two concrete firewall handlers a record can point at
(`initialHandler` and `inspectThenVerdict`); `none` on the record means the
handler was cleared (`StopFirewallHandler`). -/
inductive FWHandler where
  | initial
  | inspect
deriving DecidableEq

/-- The connection record fields read or written by the firewall package
(`network.Connection`). -/
structure Connection where
  verdict : Verdict
  verdictPermanent : Bool
  inspecting : Bool
  internal : Bool
  inbound : Bool
  saveWhenFinished : Bool
  handler : Option FWHandler
  localPort : Nat
  protocol : Protocol
  pid : Nat
  entityGlobal : Bool
deriving DecidableEq

/-- Modelled from the spec: `network.Connection.SetVerdict` is not under the
embedded sources; §3 requires the record verdict to be monotonic (once a
terminal kind, it never downgrades), so `set_verdict` installs the new
verdict exactly when it does not lower the §4.6 rank. -/
def Connection.setVerdict (conn : Connection) (v : Verdict) : Connection :=
  if conn.verdict.rank ≤ v.rank then { conn with verdict := v } else conn

/-- Modelled from the spec: `network.Connection.Accept` (§4.5 rule 1 and 3,
"set verdict=accept" with a reason) applies `set_verdict accept`. -/
def Connection.acceptConn (conn : Connection) : Connection :=
  conn.setVerdict .accept

/-- The verdict clamp of `issueVerdict`: `if verdict < conn.Verdict
\x7b verdict = conn.Verdict \x7d`. -/
def clampVerdict (proposed current : Verdict) : Verdict :=
  if proposed.rank < current.rank then current else proposed

/-- The permanent-verdict enabling step of `issueVerdict`: when
`allowPermanent && !conn.VerdictPermanent`, set `conn.VerdictPermanent`
from the `permanentVerdicts()` config flag and, if it became true, mark the
record for saving (`conn.SaveWhenFinished()`). -/
def enablePermanent (permanentVerdictsFlag allowPermanent : Bool)
    (conn : Connection) : Connection :=
  if allowPermanent && !conn.verdictPermanent then
    { conn with
      verdictPermanent := permanentVerdictsFlag,
      saveWhenFinished := conn.saveWhenFinished || permanentVerdictsFlag }
  else conn

/-- The sink chosen by the dispatch switch of `issueVerdict` for the
effective verdict: accept/block/drop use the permanent variant when
`conn.VerdictPermanent`; the reroute kinds have only one-shot sinks;
`VerdictFailed` and the default case call `pkt.Drop()`. -/
def dispatchSink (conn : Connection) : Verdict → Sink
  | .accept => if conn.verdictPermanent then .permanentAccept else .accept
  | .block => if conn.verdictPermanent then .permanentBlock else .block
  | .drop => if conn.verdictPermanent then .permanentDrop else .drop
  | .rerouteToNameserver => .rerouteToNameserver
  | .rerouteToTunnel => .rerouteToTunnel
  | .failed => .drop
  | .undecided => .drop

/-- The counter increments of the dispatch switch of `issueVerdict`:
accept/block/drop/failed each bump their counter, the default case bumps
`packetsDropped`, and the reroute cases bump nothing. -/
def bumpStats (stats : Stats) : Verdict → Stats
  | .accept => { stats with accepted := stats.accepted + 1 }
  | .block => { stats with blocked := stats.blocked + 1 }
  | .drop => { stats with dropped := stats.dropped + 1 }
  | .rerouteToNameserver => stats
  | .rerouteToTunnel => stats
  | .failed => { stats with failed := stats.failed + 1 }
  | .undecided => { stats with dropped := stats.dropped + 1 }

/-- Result of one `issueVerdict` call: the updated record, the effective
(clamped) verdict, the driver sink invoked, and the updated counters. -/
structure IssueResult where
  conn : Connection
  effective : Verdict
  sink : Sink
  stats : Stats
deriving DecidableEq

/-- `issueVerdict(conn, pkt, verdict, allowPermanent)` from the source:
enable the permanent flag, clamp the proposed verdict against
`conn.Verdict`, dispatch to the matching driver sink and bump the
matching counter. -/
def issueVerdict (permanentVerdictsFlag : Bool) (conn : Connection)
    (proposed : Verdict) (allowPermanent : Bool) (stats : Stats) :
    IssueResult :=
  let conn1 := enablePermanent permanentVerdictsFlag allowPermanent conn
  let eff := clampVerdict proposed conn1.verdict
  { conn := conn1
    effective := eff
    sink := dispatchSink conn1 eff
    stats := bumpStats stats eff }

/-- IP scope classes returned by `netutils.ClassifyIP` (listed by the
package's test file; the classifier itself is a collaborator parameter). -/
inductive IPClass where
  | hostLocal
  | linkLocal
  | siteLocal
  | global
  | localMulticast
  | globalMulticast
  | invalid
deriving DecidableEq

/-- Collaborators consulted by `fastTrackedPermit`: the IP scope classifier,
the API-port configuration, `netenv.IsMyIP` (`none` models its error
return), the nameserver-IP predicate with its ready flag, and
`netenv.SubmitPacketToICMPListener`. -/
structure FastTrackEnv where
  classifyIP : IP → IPClass
  apiPortSet : Bool
  apiPort : Nat
  apiIP : IP
  isMyIP : IP → Option Bool
  nameserverMatcherReady : Bool
  nameserverMatcher : IP → Bool
  submitICMP : PacketInfo → Bool

/-- Outcome of `fastTrackedPermit`: the returned `handled` flag, the sink
applied to the packet (if any), and whether the packet was submitted to the
ICMP listener. -/
structure FastTrackResult where
  handled : Bool
  sink : Option Sink
  submittedToICMPListener : Bool
deriving DecidableEq

/-- Whether the parsed control layer is an ICMP/ICMPv6 echo request or
reply (the inner type switches of `fastTrackedPermit`). -/
def isEchoControl (l : ICMPLayer) : Bool :=
  if l.v6 then l.icmpType = icmpV6EchoRequest ∨ l.icmpType = icmpV6EchoReply
  else l.icmpType = icmpV4EchoRequest ∨ l.icmpType = icmpV4EchoReply

/-- Whether the packet's parsed control layer is an echo request or reply
(false as well when the layer class matched neither ICMPv4 nor ICMPv6, in
which case the Go type switch falls through to the submit path). -/
def packetIsEchoControl (pkt : Packet) : Bool :=
  match pkt.icmpLayer with
  | some l => isEchoControl l
  | none => false

/-- `fastTrackedPermit(pkt)` from the source: OS-integration hint, sentinel
block targets, network self-check, the ICMP/ICMPv6 rule, and the UDP/TCP
destination-port specials (DHCP, API port, port 53), in source order. -/
def fastTrackedPermit (env : FastTrackEnv) (pkt : Packet) : FastTrackResult :=
  let meta := pkt.info
  if pkt.fastTrackedByIntegration then ⟨true, none, false⟩
  else if meta.dst = blockedIPv4 ∨ meta.dst = blockedIPv6 then
    ⟨true, some .permanentBlock, false⟩
  else if meta.srcPort = meta.dstPort ∧ meta.src = meta.dst then
    ⟨true, some .permanentAccept, false⟩
  else
    match meta.protocol with
    | .icmp | .icmpv6 =>
      if !pkt.loadPayloadOk then ⟨true, some .permanentAccept, false⟩
      else if packetIsEchoControl pkt then ⟨false, none, false⟩
      else if env.submitICMP meta then ⟨true, some .accept, true⟩
      else ⟨true, some .permanentAccept, true⟩
    | .udp | .tcp =>
      if meta.dstPort = 67 ∨ meta.dstPort = 68 ∨ meta.dstPort = 546 ∨
          meta.dstPort = 547 then
        if meta.protocol ≠ Protocol.udp then ⟨false, none, false⟩
        else if env.classifyIP meta.dst = IPClass.hostLocal ∨
            env.classifyIP meta.dst = IPClass.linkLocal ∨
            env.classifyIP meta.dst = IPClass.siteLocal ∨
            env.classifyIP meta.dst = IPClass.localMulticast then
          ⟨true, some .permanentAccept, false⟩
        else ⟨false, none, false⟩
      else if meta.dstPort = env.apiPort then
        if meta.protocol ≠ Protocol.tcp then ⟨false, none, false⟩
        else if !env.apiPortSet then ⟨false, none, false⟩
        else if meta.dst ≠ env.apiIP then ⟨false, none, false⟩
        else
          match env.isMyIP meta.src with
          | none => ⟨false, none, false⟩
          | some false => ⟨false, none, false⟩
          | some true => ⟨true, some .permanentAccept, false⟩
      else if meta.dstPort = 53 then
        if !env.nameserverMatcherReady then ⟨false, none, false⟩
        else if !env.nameserverMatcher meta.dst then ⟨false, none, false⟩
        else
          match env.isMyIP meta.src with
          | none => ⟨false, none, false⟩
          | some false => ⟨false, none, false⟩
          | some true => ⟨true, some .permanentAccept, false⟩
      else ⟨false, none, false⟩
    | .other => ⟨false, none, false⟩

/-- Result of `streamManager.HandlePacket(conn, pkt)`: the verdict it
returns, whether it returned an error, and the value it leaves in
`conn.Inspecting` (the stream manager may toggle it off when done). -/
structure StreamResult where
  verdict : Verdict
  err : Bool
  inspectingAfter : Bool
deriving DecidableEq

/-- Collaborators and configuration consulted by the connection handlers:
the `permanentVerdicts()` and `filterEnabled()` config flags,
`localPortIsPreAuthenticated`, the nameserver-IP predicate with its ready
flag, this process's PID, the policy collaborator `DecideOnConnection`, the
tunnel collaborator (`captain.ClientReady`, `sluice.AwaitRequest`
succeeding), and the stream-manager collaborator. -/
structure FirewallEnv where
  permanentVerdicts : Bool
  filterEnabled : Bool
  preAuthenticated : Protocol → Nat → Bool
  nameserverMatcherReady : Bool
  nameserverMatcher : IP → Bool
  ownPID : Nat
  decideOnConnection : Connection → PacketInfo → Connection
  clientReady : Bool
  awaitRequestOk : Bool
  stream : Connection → PacketInfo → StreamResult

/-- Result of running a connection firewall handler on one packet. -/
structure HandlerResult where
  conn : Connection
  effective : Verdict
  sink : Sink
  stats : Stats
deriving DecidableEq

/-- The common tail `issueVerdict(conn, pkt, 0, allowPermanent)` of the
handlers, packaged as a handler result. -/
def finalizeVerdict (env : FirewallEnv) (conn : Connection)
    (allowPermanent : Bool) (stats : Stats) : HandlerResult :=
  let r := issueVerdict env.permanentVerdicts conn .undecided allowPermanent stats
  ⟨r.conn, r.effective, r.sink, r.stats⟩

/-- `inspectThenVerdict(conn, pkt)` from the source: consult the stream
manager; on error fall back to a proposed accept; apply `SetVerdict` when
the (possibly overridden) verdict is above undecided; when inspection has
stopped, clear the handler and mark the record for saving; finally
`issueVerdict(conn, pkt, 0, !conn.Inspecting)`. -/
def inspectThenVerdict (env : FirewallEnv) (conn : Connection) (pkt : Packet)
    (stats : Stats) : HandlerResult :=
  let res := env.stream conn pkt.info
  let conn1 := { conn with inspecting := res.inspectingAfter }
  let verdict := if res.err then Verdict.accept else res.verdict
  let conn2 := if 0 < verdict.rank then conn1.setVerdict verdict else conn1
  let conn3 :=
    if !conn2.inspecting then
      { conn2 with handler := none, saveWhenFinished := true }
    else conn2
  finalizeVerdict env conn3 (!conn3.inspecting) stats

/-- `initialHandler(conn, pkt)` from the source: pre-authenticated port
branch, rogue-DNS redirect branch, filter-disabled branch, then the policy
decision, the tunnel upgrade, and the inspection hand-off. -/
def initialHandler (env : FirewallEnv) (conn : Connection) (pkt : Packet)
    (stats : Stats) : HandlerResult :=
  if !conn.inbound ∧ env.preAuthenticated conn.protocol conn.localPort then
    let c := { conn.acceptConn with internal := true, handler := none }
    finalizeVerdict env c true stats
  else if pkt.info.outbound ∧ pkt.info.dstPort = 53 ∧ conn.pid ≠ env.ownPID ∧
      env.nameserverMatcherReady ∧ !env.nameserverMatcher pkt.info.dst then
    let c := { conn with
      verdict := .rerouteToNameserver, internal := true, handler := none }
    finalizeVerdict env c true stats
  else if !env.filterEnabled then
    let c := { { conn with inspecting := false }.acceptConn with handler := none }
    finalizeVerdict env c true stats
  else
    let c := env.decideOnConnection conn pkt.info
    let c :=
      if pkt.info.outbound ∧ env.clientReady ∧ c.entityGlobal ∧
          c.verdict = Verdict.accept then
        if env.awaitRequestOk then { c with verdict := .rerouteToTunnel } else c
      else c
    if c.inspecting then
      inspectThenVerdict env { c with handler := some .inspect } pkt stats
    else
      finalizeVerdict env { c with handler := none } true stats

/-- `defaultHandler(conn, pkt)` from the source: re-issue the record's
current verdict with `allowPermanent = true`. -/
def defaultHandler (env : FirewallEnv) (conn : Connection) (stats : Stats) :
    HandlerResult :=
  finalizeVerdict env conn true stats

/-- The possible outcomes of the `singleflight.Do` call inside
`getConnection`: the call returned an error, returned a nil record, or
returned a record. -/
inductive GetConnOutcome where
  | doErr
  | gotNil
  | got : Connection → GetConnOutcome
deriving DecidableEq

/-- The two error messages `getConnection` can produce. -/
inductive GetConnError where
  | getterFailed
  | nilRecord
deriving DecidableEq

/-- The error handling of `getConnection` after the `singleflight.Do` call:
a `Do` error becomes "failed to get connection", a nil result becomes
"connection getter returned nil". -/
def getConnection : GetConnOutcome → Except GetConnError Connection
  | .doErr => .error .getterFailed
  | .gotNil => .error .nilRecord
  | .got c => .ok c

/-- Result of `handlePacket` for one packet: the driver sinks invoked, in
order, whether a connection firewall handler was invoked, and the updated
counters. -/
structure HandlePacketResult where
  sinks : List Sink
  handlerInvoked : Bool
  stats : Stats
deriving DecidableEq

/-- Modelled from the spec: `network.Connection.HandlePacket` is not under
the embedded sources; per §3 and §4.5 it invokes the record's current
firewall handler, or the registered default handler when the pointer is
cleared. -/
def connHandlePacket (env : FirewallEnv) (conn : Connection) (pkt : Packet)
    (stats : Stats) : HandlerResult :=
  match conn.handler with
  | some .initial => initialHandler env conn pkt stats
  | some .inspect => inspectThenVerdict env conn pkt stats
  | none => defaultHandler env conn stats

/-- `handlePacket(ctx, pkt)` from the source: try the fast-track classifier;
otherwise get the connection — dropping the packet and returning on error —
and hand the packet to the connection. -/
def handlePacket (env : FirewallEnv) (ftEnv : FastTrackEnv)
    (outcome : GetConnOutcome) (pkt : Packet) (stats : Stats) :
    HandlePacketResult :=
  let ft := fastTrackedPermit ftEnv pkt
  if ft.handled then ⟨ft.sink.toList, false, stats⟩
  else
    match getConnection outcome with
    | .error _ => ⟨[Sink.drop], false, stats⟩
    | .ok conn =>
      let r := connHandlePacket env conn pkt stats
      ⟨[r.sink], true, r.stats⟩

/-- The connection table keyed by connection-id (`network.GetConnection`);
a function from id to record, so at most one record per id is structural. -/
abbrev ConnTable : Type := Nat → Option Connection

/-- Modelled from the spec: `network.NewConnectionFromFirstPacket` is not
under the embedded sources; per §3 it builds a fresh record from the
packet with an undecided verdict, no flags set, and no handler yet. -/
def newConnectionFromFirstPacket (pkt : Packet) : Connection :=
  { verdict := .undecided
    verdictPermanent := false
    inspecting := false
    internal := false
    inbound := !pkt.info.outbound
    saveWhenFinished := false
    handler := none
    localPort := if pkt.info.outbound then pkt.info.srcPort else pkt.info.dstPort
    protocol := pkt.info.protocol
    pid := 0
    entityGlobal := false }

/-- The closure passed to `singleflight.Do` inside `getConnection`: return
the existing record for the packet's connection-id if there is one, else
construct one from the first packet, install `initialHandler`, and set the
`created` flag.  Returns the record, the `created` flag, and the table
after the call. -/
def getConnClosure (table : ConnTable) (pkt : Packet) :
    Connection × Bool × ConnTable :=
  match table pkt.connID with
  | some c => (c, false, table)
  | none =>
    let c := { newConnectionFromFirstPacket pkt with handler := some FWHandler.initial }
    (c, true, fun i => if i = pkt.connID then some c else table i)

/-- What one caller of `getConnection` observes: the record, its local
`created` flag, and the `shared` flag returned by `singleflight.Do`. -/
structure SFObservation where
  record : Connection
  created : Bool
  shared : Bool
deriving DecidableEq

/-- Modelled from the spec: the single-flight contract of §4.3
(`golang.org/x/sync/singleflight` is an external collaborator).  For a
batch of `n` concurrent callers with the same connection-id, one winner
executes the closure once; every caller receives the record it produced;
the followers' local `created` flags stay false; `shared` is true whenever
the result went to more than one caller.  Returns the observation list
(winner first), the number of constructor runs, and the table after the
batch. -/
def singleflightBatch (table : ConnTable) (pkt : Packet) (n : Nat) :
    List SFObservation × Nat × ConnTable :=
  let r := getConnClosure table pkt
  let winner : SFObservation := ⟨r.1, r.2.1, 1 < n⟩
  let followers := List.replicate (n - 1) (⟨r.1, false, true⟩ : SFObservation)
  (winner :: followers, if r.2.1 then 1 else 0, r.2.2)

/-- The set-once state around the nameserver-IP matcher: the `abool`
guards `nameserverIPMatcherSet` and `nameserverIPMatcherReady`, plus the
installed predicate. -/
structure MatcherState where
  isSet : Bool
  ready : Bool
  matcher : Option (IP → Bool)

/-- The initial matcher state (`abool.New()` twice, no function installed). -/
def matcherInit : MatcherState :=
  { isSet := false, ready := false, matcher := none }

/-- `SetNameserverIPMatcher(fn)` from the source: `SetToIf(false, true)` on
the set-guard; on failure return an error leaving everything unchanged; on
success install the function and set the ready flag.  The boolean is true
exactly when no error is returned. -/
def SetNameserverIPMatcher (st : MatcherState) (fn : IP → Bool) :
    MatcherState × Bool :=
  if st.isSet then (st, false)
  else ({ isSet := true, ready := true, matcher := some fn }, true)

/-- Modelled from the spec: which driver sink of §4.1 realises which
verdict kind (§4.6 step 3, "the driver sink matching `effective`"); the
permanent variants realise the same kind as their one-shot form, and the
reroute kinds have exactly one sink each.  `undecided` and `failed` have no
matching sink. -/
def sinkMatches : Verdict → Sink → Bool
  | .accept, .accept => true
  | .accept, .permanentAccept => true
  | .block, .block => true
  | .block, .permanentBlock => true
  | .drop, .drop => true
  | .drop, .permanentDrop => true
  | .rerouteToNameserver, .rerouteToNameserver => true
  | .rerouteToTunnel, .rerouteToTunnel => true
  | _, _ => false

/-- All four counters at zero. -/
def statsZero : Stats := { accepted := 0, blocked := 0, dropped := 0, failed := 0 }

/-- A fresh connection record with an undecided verdict and no flags set. -/
def connUndecided : Connection :=
  { verdict := .undecided
    verdictPermanent := false
    inspecting := false
    internal := false
    inbound := false
    saveWhenFinished := false
    handler := none
    localPort := 1000
    protocol := .tcp
    pid := 2
    entityGlobal := false }

/-- An inspecting record whose handler is `inspectThenVerdict`. -/
def connInspecting : Connection :=
  { connUndecided with inspecting := true, handler := some .inspect }

/-- A plain outbound TCP packet to a non-special destination port. -/
def pktPlain : Packet :=
  { info :=
      { src := ⟨false, 1⟩
        dst := ⟨false, 2⟩
        srcPort := 1000
        dstPort := 80
        protocol := .tcp
        outbound := true }
    fastTrackedByIntegration := false
    loadPayloadOk := true
    icmpLayer := none
    connID := 7 }

/-- An outbound UDP packet to `8.8.8.8:53` (scenario 4 of §8). -/
def pktRogueDNS : Packet :=
  { pktPlain with
    info := { pktPlain.info with
      dst := ⟨false, 134744072⟩, dstPort := 53, protocol := .udp } }

/-- A non-echo ICMPv4 packet (destination-unreachable, type 3). -/
def pktIcmp : Packet :=
  { pktPlain with
    info := { pktPlain.info with dstPort := 7, protocol := .icmp }
    icmpLayer := some ⟨false, 3⟩ }

/-- A handler environment whose stream manager always fails while leaving
inspection active; nameserver matcher registered but matching nothing. -/
def envStreamErr : FirewallEnv :=
  { permanentVerdicts := false
    filterEnabled := true
    preAuthenticated := fun _ _ => false
    nameserverMatcherReady := true
    nameserverMatcher := fun _ => false
    ownPID := 1
    decideOnConnection := fun c _ => c
    clientReady := false
    awaitRequestOk := false
    stream := fun _ _ => { verdict := .undecided, err := true, inspectingAfter := true } }

/-- A fast-track environment with no special matches. -/
def ftEnvPlain : FastTrackEnv :=
  { classifyIP := fun _ => IPClass.global
    apiPortSet := true
    apiPort := 817
    apiIP := ⟨false, 99⟩
    isMyIP := fun _ => some true
    nameserverMatcherReady := true
    nameserverMatcher := fun _ => false
    submitICMP := fun _ => true }

/-- A two-call sequence for the verdict-monotonicity witness: an accept
proposal on an undecided record, then a re-issue on the record after it
was blocked. -/
def c1Calls : List (Verdict × Connection × Bool) :=
  [(.accept, connUndecided, true),
   (.undecided, { connUndecided with verdict := .block }, true)]

/-! Helper lemmas about the verdict issuer. -/

theorem enablePermanent_verdict (f a : Bool) (c : Connection) :
    (enablePermanent f a c).verdict = c.verdict := by
  unfold enablePermanent; split <;> rfl

theorem enablePermanent_preserves (f a : Bool) (c : Connection) :
    (enablePermanent f a c).verdict = c.verdict ∧
    (enablePermanent f a c).internal = c.internal ∧
    (enablePermanent f a c).handler = c.handler ∧
    (enablePermanent f a c).inspecting = c.inspecting := by
  unfold enablePermanent; split <;> exact ⟨rfl, rfl, rfl, rfl⟩

theorem enablePermanent_not_allowed (f : Bool) (c : Connection) :
    enablePermanent f false c = c := rfl

theorem issueVerdict_effective (f : Bool) (c : Connection) (p : Verdict)
    (a : Bool) (s : Stats) :
    (issueVerdict f c p a s).effective = clampVerdict p c.verdict := by
  simp [issueVerdict, enablePermanent_verdict]

theorem issueVerdict_stats (f : Bool) (c : Connection) (p : Verdict)
    (a : Bool) (s : Stats) :
    (issueVerdict f c p a s).stats
      = bumpStats s (issueVerdict f c p a s).effective := rfl

theorem issueVerdict_sink (f : Bool) (c : Connection) (p : Verdict)
    (a : Bool) (s : Stats) :
    (issueVerdict f c p a s).sink
      = dispatchSink (issueVerdict f c p a s).conn
          (issueVerdict f c p a s).effective := rfl

theorem clampVerdict_rank (p c : Verdict) :
    (clampVerdict p c).rank = max p.rank c.rank := by
  unfold clampVerdict; split <;> omega

theorem clampVerdict_eq_or (p c : Verdict) :
    clampVerdict p c = p ∨ clampVerdict p c = c := by
  unfold clampVerdict; split
  · exact Or.inr rfl
  · exact Or.inl rfl

theorem le_clampVerdict_rank (p c : Verdict) :
    c.rank ≤ (clampVerdict p c).rank := by
  rw [clampVerdict_rank]; exact Nat.le_max_right _ _

theorem bumpStats_reroute (s : Stats) (v : Verdict)
    (h : v = .rerouteToNameserver ∨ v = .rerouteToTunnel) :
    bumpStats s v = s := by
  rcases h with h | h <;> rw [h] <;> rfl

theorem bumpStats_total_succ (s : Stats) (v : Verdict)
    (h : ¬(v = .rerouteToNameserver ∨ v = .rerouteToTunnel)) :
    (bumpStats s v).total = s.total + 1 := by
  cases v
  case rerouteToNameserver => exact absurd (Or.inl rfl) h
  case rerouteToTunnel => exact absurd (Or.inr rfl) h
  all_goals simp only [bumpStats, Stats.total]; omega

theorem dispatchSink_matches (c : Connection) (v : Verdict)
    (h1 : v ≠ .failed) (h2 : v ≠ .undecided) :
    sinkMatches v (dispatchSink c v) = true := by
  cases v
  case failed => exact absurd rfl h1
  case undecided => exact absurd rfl h2
  all_goals cases hc : c.verdictPermanent <;>
    simp [dispatchSink, sinkMatches, hc]

theorem dispatchSink_drop (c : Connection) (v : Verdict)
    (h : v = .failed ∨ v = .undecided) : dispatchSink c v = .drop := by
  rcases h with h | h <;> rw [h] <;> rfl

theorem dispatchSink_permanentVariant (c : Connection) (v : Verdict) :
    (dispatchSink c v).isPermanentVariant = true ↔
      (c.verdictPermanent = true ∧
        (v = .accept ∨ v = .block ∨ v = .drop)) := by
  cases v <;> cases hc : c.verdictPermanent <;>
    simp [dispatchSink, Sink.isPermanentVariant, hc]

/-! Claim theorems. -/

/-- C1: `issueVerdict` dispatches the maximum of the proposed verdict and
the record's current verdict under the monotonic order `undecided < accept
< \x7breroute-to-tunnel, reroute-to-nameserver\x7d < block < drop < failed`; in
particular an accept proposal never displaces a reroute verdict, and a
reroute proposal never displaces block or drop.  Consequently, across a
sequence of `issue_verdict` calls on one record in which each call finds
the record verdict at least as high as the previous call's effective
verdict (the record verdict evolves monotonically, §3), the effective
verdicts are non-decreasing. -/
theorem c1_verdict_clamp_monotonicity :
    (∀ (flag : Bool) (conn : Connection) (proposed : Verdict)
        (allowP : Bool) (stats : Stats),
      (issueVerdict flag conn proposed allowP stats).effective.rank
          = max proposed.rank conn.verdict.rank
      ∧ ((issueVerdict flag conn proposed allowP stats).effective = proposed
          ∨ (issueVerdict flag conn proposed allowP stats).effective
              = conn.verdict))
    ∧ (∀ (flag : Bool) (conn : Connection) (allowP : Bool) (stats : Stats),
        conn.verdict = .rerouteToNameserver ∨ conn.verdict = .rerouteToTunnel →
        (issueVerdict flag conn .accept allowP stats).effective = conn.verdict)
    ∧ (∀ (flag : Bool) (conn : Connection) (allowP : Bool) (stats : Stats)
        (p : Verdict),
        conn.verdict = .block ∨ conn.verdict = .drop →
        p = .rerouteToNameserver ∨ p = .rerouteToTunnel →
        (issueVerdict flag conn p allowP stats).effective = conn.verdict)
    ∧ (∀ (flag : Bool) (stats : Stats)
        (calls : List (Verdict × Connection × Bool)),
        calls.Chain' (fun a b =>
          (issueVerdict flag a.2.1 a.1 a.2.2 stats).effective.rank
            ≤ b.2.1.verdict.rank) →
        (calls.map fun c =>
            (issueVerdict flag c.2.1 c.1 c.2.2 stats).effective.rank).Chain'
          (fun x y => x ≤ y)) := by
  refine ⟨?_, ?_, ?_, ?_⟩
  · intro flag conn proposed allowP stats
    rw [issueVerdict_effective]
    exact ⟨clampVerdict_rank _ _, clampVerdict_eq_or _ _⟩
  · intro flag conn allowP stats h
    rw [issueVerdict_effective]
    rcases h with h | h <;> rw [h] <;> rfl
  · intro flag conn allowP stats p h hp
    rw [issueVerdict_effective]
    rcases h with h | h <;> rcases hp with hp | hp <;> rw [h, hp] <;> rfl
  · intro flag stats calls h
    rw [List.chain'_map]
    refine h.imp ?_
    intro a b hab
    refine le_trans hab ?_
    rw [issueVerdict_effective]
    exact le_clampVerdict_rank _ _

/-- Witness for C1: a concrete two-call monotone sequence, an accept
proposal against a reroute record, and a reroute proposal against a
blocked record. -/
theorem c1_witness :
    ((c1Calls.map fun c =>
        (issueVerdict false c.2.1 c.1 c.2.2 statsZero).effective.rank).Chain'
      (fun x y => x ≤ y))
    ∧ (issueVerdict false
          { connUndecided with verdict := .rerouteToNameserver }
          .accept true statsZero).effective = Verdict.rerouteToNameserver
    ∧ (issueVerdict false { connUndecided with verdict := .block }
          .rerouteToNameserver true statsZero).effective = Verdict.block := by
  refine ⟨c1_verdict_clamp_monotonicity.2.2.2 false statsZero c1Calls
      (List.chain'_cons.mpr ⟨by decide, List.chain'_singleton _⟩),
    c1_verdict_clamp_monotonicity.2.1 false _ true statsZero (Or.inl rfl),
    c1_verdict_clamp_monotonicity.2.2.1 false _ true statsZero
      .rerouteToNameserver (Or.inl rfl) (Or.inl rfl)⟩

/-- C2 counterexample: a call to `issueVerdict` whose effective verdict is
reroute-to-nameserver makes one driver sink call yet leaves all four
counters unchanged, so `accepted + blocked + dropped + failed` undercounts
the per-packet sink calls and this call increments none of the four
counters. -/
theorem c2_counterexample :
    (issueVerdict false
        { connUndecided with verdict := .rerouteToNameserver }
        .undecided false statsZero).sink = Sink.rerouteToNameserver
    ∧ (issueVerdict false
        { connUndecided with verdict := .rerouteToNameserver }
        .undecided false statsZero).stats = statsZero := by decide

/-- C2 amended: a call to `issueVerdict` increments exactly one of the four
counters when its effective verdict is not a reroute kind, and increments
none of them when the effective verdict is reroute-to-nameserver or
reroute-to-tunnel; so over a window the counter sum equals the number of
sink calls whose effective verdict was not a reroute kind. -/
theorem c2_amended_counter_conservation (flag : Bool) (conn : Connection)
    (proposed : Verdict) (allowP : Bool) (stats : Stats) :
    ((issueVerdict flag conn proposed allowP stats).effective
          = .rerouteToNameserver
        ∨ (issueVerdict flag conn proposed allowP stats).effective
          = .rerouteToTunnel →
      (issueVerdict flag conn proposed allowP stats).stats = stats)
    ∧ (¬((issueVerdict flag conn proposed allowP stats).effective
          = .rerouteToNameserver
        ∨ (issueVerdict flag conn proposed allowP stats).effective
          = .rerouteToTunnel) →
      (issueVerdict flag conn proposed allowP stats).stats.total
        = stats.total + 1) := by
  constructor
  · intro h
    rw [issueVerdict_stats]
    exact bumpStats_reroute stats _ h
  · intro h
    rw [issueVerdict_stats]
    exact bumpStats_total_succ stats _ h

/-- Witness for the amended C2: a reroute call leaves the counters alone,
an accept call bumps the sum by one. -/
theorem c2_witness :
    (issueVerdict false
        { connUndecided with verdict := .rerouteToNameserver }
        .undecided true statsZero).stats = statsZero
    ∧ (issueVerdict false connUndecided .accept true statsZero).stats.total
        = statsZero.total + 1 :=
  ⟨(c2_amended_counter_conservation false _ .undecided true statsZero).1
      (by decide),
   (c2_amended_counter_conservation false connUndecided .accept true
      statsZero).2 (by decide)⟩

/-- C6 counterexample: with a permanent record whose verdict is `failed`,
the effective verdict is `failed` but the sink invoked is the one-shot
drop sink, which does not match the effective verdict. -/
theorem c6_counterexample :
    (issueVerdict false
        { connUndecided with verdict := .failed, verdictPermanent := true }
        .undecided false statsZero).effective = Verdict.failed
    ∧ sinkMatches Verdict.failed
        (issueVerdict false
          { connUndecided with verdict := .failed, verdictPermanent := true }
          .undecided false statsZero).sink = false := by decide

/-- C6 amended: the sink matches the effective verdict whenever the
effective verdict is a kind with a driver sink (not `failed` or
`undecided`); effective `failed` and `undecided` dispatch the one-shot
drop sink; and the permanent variant is used exactly when the record's
permanent flag is set and the effective verdict is accept, block or
drop. -/
theorem c6_amended_sink_dispatch (flag : Bool) (conn : Connection)
    (proposed : Verdict) (allowP : Bool) (stats : Stats) :
    ((issueVerdict flag conn proposed allowP stats).effective ≠ .failed →
      (issueVerdict flag conn proposed allowP stats).effective ≠ .undecided →
      sinkMatches (issueVerdict flag conn proposed allowP stats).effective
        (issueVerdict flag conn proposed allowP stats).sink = true)
    ∧ ((issueVerdict flag conn proposed allowP stats).effective = .failed
        ∨ (issueVerdict flag conn proposed allowP stats).effective
            = .undecided →
      (issueVerdict flag conn proposed allowP stats).sink = Sink.drop)
    ∧ ((issueVerdict flag conn proposed allowP stats).sink.isPermanentVariant
          = true ↔
        ((issueVerdict flag conn proposed allowP stats).conn.verdictPermanent
            = true
         ∧ ((issueVerdict flag conn proposed allowP stats).effective = .accept
            ∨ (issueVerdict flag conn proposed allowP stats).effective
                = .block
            ∨ (issueVerdict flag conn proposed allowP stats).effective
                = .drop))) := by
  refine ⟨?_, ?_, ?_⟩
  · intro h1 h2
    rw [issueVerdict_sink]
    exact dispatchSink_matches _ _ h1 h2
  · intro h
    rw [issueVerdict_sink]
    exact dispatchSink_drop _ _ h
  · rw [issueVerdict_sink]
    exact dispatchSink_permanentVariant _ _

/-- Witness for the amended C6: a permanent accepted record gets a matching
(permanent) sink; a failed record gets the one-shot drop sink. -/
theorem c6_witness :
    sinkMatches
      (issueVerdict true { connUndecided with verdict := .accept }
        .undecided true statsZero).effective
      (issueVerdict true { connUndecided with verdict := .accept }
        .undecided true statsZero).sink = true
    ∧ (issueVerdict false { connUndecided with verdict := .failed }
        .undecided false statsZero).sink = Sink.drop :=
  ⟨(c6_amended_sink_dispatch true _ .undecided true statsZero).1
      (by decide) (by decide),
   (c6_amended_sink_dispatch false _ .undecided false statsZero).2.1
      (by decide)⟩

/-- C9: when both the proposed and the record verdict are undecided, the
effective verdict is undecided, which falls to the default case of the
dispatch switch: the one-shot drop sink is called and the dropped counter
is incremented. -/
theorem c9_undecided_default_drop (flag : Bool) (conn : Connection)
    (allowP : Bool) (stats : Stats) (h : conn.verdict = .undecided) :
    (issueVerdict flag conn .undecided allowP stats).effective = .undecided
    ∧ (issueVerdict flag conn .undecided allowP stats).sink = Sink.drop
    ∧ Sink.isPermanentVariant
        (issueVerdict flag conn .undecided allowP stats).sink = false
    ∧ (issueVerdict flag conn .undecided allowP stats).stats.dropped
        = stats.dropped + 1 := by
  have he : (issueVerdict flag conn .undecided allowP stats).effective
      = .undecided := by
    rw [issueVerdict_effective, h]; rfl
  refine ⟨he, ?_, ?_, ?_⟩
  · rw [issueVerdict_sink, he]; rfl
  · rw [issueVerdict_sink, he]; rfl
  · rw [issueVerdict_stats, he]; rfl

/-- Witness for C9 on a fresh undecided record. -/
theorem c9_witness :
    (issueVerdict false connUndecided .undecided true statsZero).sink
        = Sink.drop
    ∧ (issueVerdict false connUndecided .undecided true statsZero).stats.dropped
        = statsZero.dropped + 1 := by
  have h := c9_undecided_default_drop false connUndecided true statsZero rfl
  exact ⟨h.2.1, h.2.2.2⟩

/-! Helper lemmas about the connection handlers. -/

theorem setVerdict_verdict (c : Connection) (v : Verdict) :
    (c.setVerdict v).verdict
      = if c.verdict.rank ≤ v.rank then v else c.verdict := by
  unfold Connection.setVerdict; split <;> simp_all

theorem setVerdict_preserves (c : Connection) (v : Verdict) :
    (c.setVerdict v).verdictPermanent = c.verdictPermanent ∧
    (c.setVerdict v).inspecting = c.inspecting ∧
    (c.setVerdict v).handler = c.handler := by
  unfold Connection.setVerdict; split <;> exact ⟨rfl, rfl, rfl⟩

theorem finalizeVerdict_conn (env : FirewallEnv) (c : Connection) (a : Bool)
    (s : Stats) :
    (finalizeVerdict env c a s).conn
      = enablePermanent env.permanentVerdicts a c := rfl

theorem finalizeVerdict_effective (env : FirewallEnv) (c : Connection)
    (a : Bool) (s : Stats) :
    (finalizeVerdict env c a s).effective
      = clampVerdict .undecided c.verdict := by
  show clampVerdict .undecided
      (enablePermanent env.permanentVerdicts a c).verdict = _
  rw [enablePermanent_verdict]

theorem finalizeVerdict_sink (env : FirewallEnv) (c : Connection) (a : Bool)
    (s : Stats) :
    (finalizeVerdict env c a s).sink
      = dispatchSink (enablePermanent env.permanentVerdicts a c)
          (clampVerdict .undecided c.verdict) := by
  show dispatchSink (enablePermanent env.permanentVerdicts a c)
      (clampVerdict .undecided
        (enablePermanent env.permanentVerdicts a c).verdict) = _
  rw [enablePermanent_verdict]

theorem inspectThenVerdict_err (env : FirewallEnv) (conn : Connection)
    (pkt : Packet) (stats : Stats)
    (herr : (env.stream conn pkt.info).err = true)
    (hinsp : (env.stream conn pkt.info).inspectingAfter = true) :
    inspectThenVerdict env conn pkt stats
      = finalizeVerdict env
          (Connection.setVerdict { conn with inspecting := true }
            Verdict.accept)
          false stats := by
  simp [inspectThenVerdict, herr, hinsp, Verdict.rank,
    (setVerdict_preserves { conn with inspecting := true } .accept).2.1]

/-- C3 counterexample: on a stream-manager error the handler calls
`SetVerdict(accept)`, so the record verdict of a previously undecided
inspecting connection changes to accept (first conjunct), and on a blocked
but still-inspecting connection the error path dispatches the block sink
rather than accepting the packet (second conjunct). -/
theorem c3_counterexample :
    (inspectThenVerdict envStreamErr connInspecting pktPlain
        statsZero).conn.verdict ≠ connInspecting.verdict
    ∧ (inspectThenVerdict envStreamErr
        { connInspecting with verdict := .block } pktPlain
        statsZero).sink = Sink.block := by decide

/-- C3 amended: when the stream manager errors and leaves inspection
active, the proposed verdict is forced to accept and `set_verdict(accept)`
is applied: the record verdict becomes accept when it was undecided or
accept, and is otherwise unchanged; when the record verdict was at most
accept and the record is not permanent, the packet receives the one-shot
accept sink and the handler stays attached so the flow is re-evaluated on
the next packet. -/
theorem c3_amended_stream_error (env : FirewallEnv) (conn : Connection)
    (pkt : Packet) (stats : Stats)
    (herr : (env.stream conn pkt.info).err = true)
    (hinsp : (env.stream conn pkt.info).inspectingAfter = true) :
    ((inspectThenVerdict env conn pkt stats).conn.verdict
        = if conn.verdict.rank ≤ Verdict.accept.rank then Verdict.accept
          else conn.verdict)
    ∧ (conn.verdict.rank ≤ Verdict.accept.rank →
       conn.verdictPermanent = false →
        (inspectThenVerdict env conn pkt stats).sink = Sink.accept
        ∧ Sink.isPermanentVariant
            (inspectThenVerdict env conn pkt stats).sink = false
        ∧ (inspectThenVerdict env conn pkt stats).conn.handler
            = conn.handler) := by
  rw [inspectThenVerdict_err env conn pkt stats herr hinsp]
  have hv : (Connection.setVerdict { conn with inspecting := true }
      Verdict.accept).verdict
      = if conn.verdict.rank ≤ Verdict.accept.rank then Verdict.accept
        else conn.verdict := setVerdict_verdict _ _
  constructor
  · rw [finalizeVerdict_conn, enablePermanent_not_allowed]
    exact hv
  · intro hle hperm
    have hva : (Connection.setVerdict { conn with inspecting := true }
        Verdict.accept).verdict = Verdict.accept := by
      rw [hv]; exact if_pos hle
    have hp : (Connection.setVerdict { conn with inspecting := true }
        Verdict.accept).verdictPermanent = false := by
      rw [(setVerdict_preserves _ _).1]; exact hperm
    have hs : (finalizeVerdict env
        (Connection.setVerdict { conn with inspecting := true }
          Verdict.accept) false stats).sink = Sink.accept := by
      rw [finalizeVerdict_sink, enablePermanent_not_allowed, hva]
      show dispatchSink _ Verdict.accept = _
      rw [show dispatchSink (Connection.setVerdict
          { conn with inspecting := true } Verdict.accept) Verdict.accept
        = if (Connection.setVerdict { conn with inspecting := true }
            Verdict.accept).verdictPermanent then Sink.permanentAccept
          else Sink.accept from rfl, hp]
      rfl
    refine ⟨hs, ?_, ?_⟩
    · rw [hs]; rfl
    · rw [finalizeVerdict_conn, enablePermanent_not_allowed]
      exact (setVerdict_preserves _ _).2.2

/-- Witness for the amended C3 on a fresh inspecting record with an
erroring stream manager. -/
theorem c3_witness :
    (inspectThenVerdict envStreamErr connInspecting pktPlain
        statsZero).conn.verdict
      = (if connInspecting.verdict.rank ≤ Verdict.accept.rank then
          Verdict.accept else connInspecting.verdict)
    ∧ (inspectThenVerdict envStreamErr connInspecting pktPlain
        statsZero).sink = Sink.accept := by
  have h := c3_amended_stream_error envStreamErr connInspecting pktPlain
    statsZero rfl rfl
  exact ⟨h.1, (h.2 (by decide) rfl).1⟩

/-- C4: an outbound packet to destination port 53 from a foreign PID, with
the nameserver matcher registered and not matching the destination, and
the local port not pre-authenticated, makes the initial handler set
verdict reroute-to-nameserver and internal, clear the firewall handler,
and dispatch the reroute-to-nameserver driver sink. -/
theorem c4_rogue_dns_redirect (env : FirewallEnv) (conn : Connection)
    (pkt : Packet) (stats : Stats)
    (hpre : env.preAuthenticated conn.protocol conn.localPort = false)
    (hout : pkt.info.outbound = true)
    (hport : pkt.info.dstPort = 53)
    (hpid : conn.pid ≠ env.ownPID)
    (hready : env.nameserverMatcherReady = true)
    (hmatch : env.nameserverMatcher pkt.info.dst = false) :
    (initialHandler env conn pkt stats).conn.verdict
        = Verdict.rerouteToNameserver
    ∧ (initialHandler env conn pkt stats).conn.internal = true
    ∧ (initialHandler env conn pkt stats).conn.handler = none
    ∧ (initialHandler env conn pkt stats).effective
        = Verdict.rerouteToNameserver
    ∧ (initialHandler env conn pkt stats).sink
        = Sink.rerouteToNameserver := by
  have hred : initialHandler env conn pkt stats
      = finalizeVerdict env
          { conn with
            verdict := .rerouteToNameserver
            internal := true
            handler := none } true stats := by
    simp [initialHandler, hpre, hout, hport, hpid, hready, hmatch]
  rw [hred]
  refine ⟨?_, ?_, ?_, ?_, ?_⟩
  · rw [finalizeVerdict_conn, enablePermanent_verdict]
  · rw [finalizeVerdict_conn, (enablePermanent_preserves _ _ _).2.1]
  · rw [finalizeVerdict_conn, (enablePermanent_preserves _ _ _).2.2.1]
  · rw [finalizeVerdict_effective]; rfl
  · rw [finalizeVerdict_sink]; rfl

/-- Witness for C4: scenario 4 of §8 with concrete addresses. -/
theorem c4_witness :
    (initialHandler envStreamErr
        { connUndecided with handler := some .initial } pktRogueDNS
        statsZero).conn.verdict = Verdict.rerouteToNameserver
    ∧ (initialHandler envStreamErr
        { connUndecided with handler := some .initial } pktRogueDNS
        statsZero).conn.internal = true
    ∧ (initialHandler envStreamErr
        { connUndecided with handler := some .initial } pktRogueDNS
        statsZero).conn.handler = none
    ∧ (initialHandler envStreamErr
        { connUndecided with handler := some .initial } pktRogueDNS
        statsZero).sink = Sink.rerouteToNameserver := by
  have h := c4_rogue_dns_redirect envStreamErr
    { connUndecided with handler := some .initial } pktRogueDNS statsZero
    rfl rfl rfl (by decide) rfl rfl
  exact ⟨h.1, h.2.1, h.2.2.1, h.2.2.2.2⟩

/-- C5: for an ICMP/ICMPv6 packet that reaches the ICMP rule of the
fast-track classifier: a failed payload load yields permanent-accept and
handled; an echo request or reply yields handled=false with no sink; any
other control packet is submitted to the ICMP listener and gets the
one-shot accept sink if the listener accepted it, else the
permanent-accept sink, with handled=true. -/
theorem c5_fast_track_icmp (env : FastTrackEnv) (pkt : Packet)
    (hft : pkt.fastTrackedByIntegration = false)
    (hdst : ¬(pkt.info.dst = blockedIPv4 ∨ pkt.info.dst = blockedIPv6))
    (hself : ¬(pkt.info.srcPort = pkt.info.dstPort ∧
        pkt.info.src = pkt.info.dst))
    (hproto : pkt.info.protocol = Protocol.icmp ∨
        pkt.info.protocol = Protocol.icmpv6) :
    (pkt.loadPayloadOk = false →
      fastTrackedPermit env pkt
        = ⟨true, some Sink.permanentAccept, false⟩)
    ∧ (pkt.loadPayloadOk = true → packetIsEchoControl pkt = true →
        fastTrackedPermit env pkt = ⟨false, none, false⟩)
    ∧ (pkt.loadPayloadOk = true → packetIsEchoControl pkt = false →
        fastTrackedPermit env pkt
          = ⟨true,
             some (if env.submitICMP pkt.info then Sink.accept
                   else Sink.permanentAccept),
             true⟩) := by
  refine ⟨?_, ?_, ?_⟩
  · intro hload
    rcases hproto with hp | hp <;>
      simp [fastTrackedPermit, hft, hdst, hself, hp, hload]
  · intro hload hecho
    rcases hproto with hp | hp <;>
      simp [fastTrackedPermit, hft, hdst, hself, hp, hload, hecho]
  · intro hload hecho
    rcases hproto with hp | hp <;>
      simp [fastTrackedPermit, hft, hdst, hself, hp, hload, hecho] <;>
      split <;> rfl

/-- Witness for C5: a concrete non-echo ICMPv4 packet with a listener that
accepts it. -/
theorem c5_witness :
    fastTrackedPermit ftEnvPlain pktIcmp
      = ⟨true,
         some (if ftEnvPlain.submitICMP pktIcmp.info then Sink.accept
               else Sink.permanentAccept),
         true⟩ :=
  (c5_fast_track_icmp ftEnvPlain pktIcmp rfl (by decide) (by decide)
    (Or.inl rfl)).2.2 rfl rfl

/-- C7: for a batch of `n` concurrent first packets with the same
connection-id and no existing record, the constructor runs exactly once
with `initialHandler` installed, all `n` callers receive the same record,
the winner alone observes created=true, the `n-1` followers observe
created=false and shared=true, and the table afterwards holds exactly this
one new record under that id. -/
theorem c7_single_flight_creation (table : ConnTable) (pkt : Packet)
    (n : Nat) (hnone : table pkt.connID = none) (hn : 1 ≤ n) :
    (singleflightBatch table pkt n).2.1 = 1
    ∧ (singleflightBatch table pkt n).1.length = n
    ∧ (∀ o ∈ (singleflightBatch table pkt n).1,
        o.record = (getConnClosure table pkt).1)
    ∧ ((singleflightBatch table pkt n).1.head?.map SFObservation.created
        = some true)
    ∧ (∀ o ∈ (singleflightBatch table pkt n).1.tail,
        o.created = false ∧ o.shared = true)
    ∧ (singleflightBatch table pkt n).1.tail.length = n - 1
    ∧ (singleflightBatch table pkt n).2.2 pkt.connID
        = some (getConnClosure table pkt).1
    ∧ (∀ j, j ≠ pkt.connID →
        (singleflightBatch table pkt n).2.2 j = table j)
    ∧ (getConnClosure table pkt).1.handler = some FWHandler.initial := by
  have hclo : getConnClosure table pkt
      = ({ newConnectionFromFirstPacket pkt with
            handler := some FWHandler.initial },
         true,
         fun i => if i = pkt.connID then
             some { newConnectionFromFirstPacket pkt with
               handler := some FWHandler.initial }
           else table i) := by
    unfold getConnClosure; rw [hnone]
  refine ⟨?_, ?_, ?_, ?_, ?_, ?_, ?_, ?_, ?_⟩
  · simp [singleflightBatch, hclo]
  · simp [singleflightBatch, hclo]
    omega
  · intro o ho
    simp [singleflightBatch, hclo] at ho
    rcases ho with ho | ho
    · rw [ho, hclo]
    · rw [ho.2, hclo]
  · simp [singleflightBatch, hclo]
  · intro o ho
    simp [singleflightBatch, hclo] at ho
    rw [ho.2]
    exact ⟨rfl, rfl⟩
  · simp [singleflightBatch, hclo]
  · simp [singleflightBatch, hclo]
  · intro j hj
    simp [singleflightBatch, hclo, hj]
  · rw [hclo]

/-- Witness for C7: a batch of three first packets on an empty table. -/
theorem c7_witness :
    (singleflightBatch (fun _ => none) pktPlain 3).2.1 = 1
    ∧ (singleflightBatch (fun _ => none) pktPlain 3).1.length = 3
    ∧ (singleflightBatch (fun _ => none) pktPlain 3).1.tail.length = 2 := by
  have h := c7_single_flight_creation (fun _ => none) pktPlain 3 rfl
    (by decide)
  exact ⟨h.1, h.2.1, h.2.2.2.2.2.1⟩

/-- C8: the first call to `SetNameserverIPMatcher` succeeds and installs
the matcher (setting the set and ready guards); every call on a state
whose set-guard is up returns an error and leaves the whole state —
matcher function included — unchanged. -/
theorem c8_matcher_set_once (fn g : IP → Bool) :
    (SetNameserverIPMatcher matcherInit fn).2 = true
    ∧ (SetNameserverIPMatcher matcherInit fn).1.matcher = some fn
    ∧ (SetNameserverIPMatcher matcherInit fn).1.isSet = true
    ∧ (SetNameserverIPMatcher matcherInit fn).1.ready = true
    ∧ (∀ st : MatcherState, st.isSet = true →
        SetNameserverIPMatcher st g = (st, false)) := by
  refine ⟨rfl, rfl, rfl, rfl, ?_⟩
  intro st h
  simp [SetNameserverIPMatcher, h]

/-- Witness for C8: install a matcher, then observe the second call fail
without touching the state. -/
theorem c8_witness :
    SetNameserverIPMatcher
        (SetNameserverIPMatcher matcherInit (fun _ => true)).1
        (fun _ => false)
      = ((SetNameserverIPMatcher matcherInit (fun _ => true)).1, false) :=
  (c8_matcher_set_once (fun _ => true) (fun _ => false)).2.2.2.2 _ rfl

/-- C10: when the fast-track classifier does not handle the packet and
obtaining the connection fails (an error from the getter or a nil record),
`handlePacket` calls the packet's drop sink, invokes no firewall handler,
and leaves the verdict counters unchanged. -/
theorem c10_conn_failure_drop (env : FirewallEnv) (ftEnv : FastTrackEnv)
    (outcome : GetConnOutcome) (pkt : Packet) (stats : Stats)
    (hft : (fastTrackedPermit ftEnv pkt).handled = false)
    (herr : ∃ e, getConnection outcome = Except.error e) :
    handlePacket env ftEnv outcome pkt stats
      = ⟨[Sink.drop], false, stats⟩ := by
  obtain ⟨e, he⟩ := herr
  simp [handlePacket, hft, he]

/-- Witness for C10: a plain packet whose connection getter errors. -/
theorem c10_witness :
    handlePacket envStreamErr ftEnvPlain GetConnOutcome.doErr pktPlain
        statsZero
      = ⟨[Sink.drop], false, statsZero⟩ :=
  c10_conn_failure_drop envStreamErr ftEnvPlain .doErr pktPlain statsZero
    (by decide) ⟨GetConnError.getterFailed, rfl⟩

end Portmaster
